import Mathlib

/-!
# Verification of the josefine Raft role-transition state machine

Shallow embedding of the Raft state machine of the josefine repository.
The repository holds two generations of the implementation:

* `src/josefine-raft/src/` — the main module (`raft.rs`, `follower.rs`,
  `candidate.rs`), embedded in namespace `Josefine` below;
* `src/src/raft/` — an older module (`raft.rs`, `candidate.rs`), embedded
  in namespace `SrcRaft` below.

Instants and durations are modelled as `Nat`; the driver clock is the
explicit `now` argument.  The `Io` trait (persistence) is modelled as a
record of functions over a log-state type `σ`; the `heartbeat` operation
returns `Option σ` because the only implementation under `src/`
(`MemoryIo::heartbeat`) is `unimplemented!()`, i.e. it panics, while other
implementations succeed.  The `Rpc` trait (its file is not under `src/`) is
modelled as a message sink: calls are recorded in an outbox list `sent`,
matching the wire messages of spec §6.  Rust's `Result<RaftHandle, Error>`
together with the possibility of a panic is modelled by the `Outcome` type
below: `ok` and `err` are the two `Result` branches, `panicked` is a panic.
-/

namespace Josefine

/-- `NodeId` from raft.rs: an id that uniquely identifies a Raft instance. -/
abbrev NodeId := Nat

/-- An entry in the commit log (raft.rs `Entry`); bytes are modelled as `Nat`s. -/
structure Entry where
  term : Nat
  index : Nat
  data : List Nat
deriving Repr, DecidableEq

/-- Commands that can be applied to the state machine (raft.rs `Command`).
The snapshots of raft.rs / follower.rs / candidate.rs name the append
command `Append` or `AppendEntries` and its sender field `leader_id` or
`from`; they are the same command and we use `AppendEntries`/`leader_id`. -/
inductive Command where
  | Tick
  | AddNode (id : NodeId)
  | VoteRequest (term : Nat) (candidate_id : NodeId)
  | VoteResponse (term : Nat) (candidate_id : NodeId) (granted : Bool)
  | AppendEntries (term : Nat) (leader_id : NodeId) (entries : List Entry)
  | Heartbeat (term : Nat) (leader_id : NodeId)
  | Timeout
  | Noop
  | Ping (id : NodeId)
deriving Repr, DecidableEq

/-- Volatile and persistent state common to all roles (raft.rs `State`).
`election_time` is a clock value; follower.rs resets it with
`self.state.election_time = 0`. -/
structure State where
  current_term : Nat
  voted_for : Option NodeId
  commit_index : Nat
  last_applied : Nat
  election_time : Nat
  heartbeat_time : Nat
  election_timeout : Option Nat
  heartbeat_timeout : Option Nat
  min_election_timeout : Nat
  max_election_timeout : Nat
deriving Repr, DecidableEq

/-- `State::default()` from raft.rs. -/
def State.default : State :=
  { current_term := 0, voted_for := none, commit_index := 0, last_applied := 0,
    election_time := 0, heartbeat_time := 0, election_timeout := none,
    heartbeat_timeout := none, min_election_timeout := 10,
    max_election_timeout := 1000 }

/-- The configuration fields the embedded code reads (config.rs is not under
`src/`; candidate.rs reads `config.heartbeat_timeout`, follower.rs reads
`config.id`). -/
structure RaftConfig where
  id : NodeId
  heartbeat_timeout : Nat
deriving Repr, DecidableEq

/-- Wire messages produced through the `Rpc` trait.  rpc.rs is not under
`src/`; per spec §6 a vote response carries (term, voter, granted), and the
voter's term is read from the state passed to `respond_vote`. -/
inductive RpcCall where
  | respondVote (term : Nat) (target : NodeId) (granted : Bool)
  | ping (target : NodeId)
  | heartbeatMsg (term : Nat) (target : NodeId)
deriving Repr, DecidableEq

/-- The `Io` trait of raft.rs as a record of functions over a log-state `σ`.
`heartbeat` returns `Option σ`: `none` models a panic (see `MemoryIo`). -/
structure IoImpl (σ : Type) where
  append : σ → List Entry → σ
  heartbeat : σ → NodeId → Option σ

/-- `MemoryIo` from raft.rs: the log is an in-memory list of entries;
`append` concatenates, `heartbeat` is `unimplemented!()` — it panics,
modelled as `none`. -/
def MemoryIo : IoImpl (List Entry) :=
  { append := fun st es => st ++ es, heartbeat := fun _ _ => none }

/-- The spec-§4.3 election tally.  Modelled from the spec: election.rs is
declared in lib.rs but is not under `src/`.  Spec §4.3 and the glossary:
votes are tallied per voter and the election is won when granted votes reach
the majority `⌈(N+1)/2⌉` of the cluster size `N` (self included); it is lost
when denials reach the same threshold. -/
structure Election where
  voters : List NodeId
  votes : List (NodeId × Bool)
deriving Repr, DecidableEq

/-- Majority threshold `⌈(N+1)/2⌉` (spec glossary), which equals `n / 2 + 1`. -/
def majority (n : Nat) : Nat := n / 2 + 1

/-- `Election::new(&cluster)`: no votes recorded yet. -/
def Election.new (voters : List NodeId) : Election :=
  { voters := voters, votes := [] }

/-- Record one vote per voter: a repeated voter overwrites its old vote. -/
def insertVote (votes : List (NodeId × Bool)) (id : NodeId) (g : Bool) :
    List (NodeId × Bool) :=
  if votes.any (fun p => p.1 = id) then
    votes.map (fun p => if p.1 = id then (id, g) else p)
  else
    votes ++ [(id, g)]

/-- `Election::vote(id, granted)`. -/
def Election.vote (e : Election) (id : NodeId) (g : Bool) : Election :=
  { e with votes := insertVote e.votes id g }

/-- `Election::reset()`, called by `Role::term` for Candidate. -/
def Election.reset (e : Election) : Election :=
  { e with votes := [] }

/-- Number of granted votes recorded. -/
def Election.grantedCount (e : Election) : Nat :=
  (e.votes.filter (fun p => p.2 = true)).length

/-- Number of denied votes recorded. -/
def Election.deniedCount (e : Election) : Nat :=
  (e.votes.filter (fun p => p.2 = false)).length

/-- `ElectionStatus` from election.rs (used by candidate.rs). -/
inductive ElectionStatus where
  | Elected
  | Voting
  | Defeated
deriving Repr, DecidableEq

/-- `Election::election_status()`.  Modelled from the spec (§4.3): Elected
when granted votes reach the majority, Defeated when denials do, Voting
otherwise. -/
def Election.electionStatus (e : Election) : ElectionStatus :=
  if majority e.voters.length ≤ e.grantedCount then ElectionStatus.Elected
  else if majority e.voters.length ≤ e.deniedCount then ElectionStatus.Defeated
  else ElectionStatus.Voting

/-- Follower role state (follower.rs). -/
structure Follower where
  leader_id : Option NodeId
deriving Repr, DecidableEq

/-- Candidate role state (candidate.rs). -/
structure Candidate where
  election : Election
deriving Repr, DecidableEq

/-- Per-peer replication cursors held by a Leader.  Modelled from the spec:
progress.rs is declared in lib.rs but is not under `src/`;
`ReplicationProgress::new(nodes)` receives only the node map, so each peer
starts at `next_index = 1`, `match_index = 0` (spec §4.4 entry actions). -/
structure ReplicationProgress where
  cursors : List (NodeId × Nat × Nat)
deriving Repr, DecidableEq

/-- `ReplicationProgress::new(nodes)` (modelled from the spec, see above). -/
def ReplicationProgress.new (nodes : List NodeId) : ReplicationProgress :=
  { cursors := nodes.map (fun n => (n, 1, 0)) }

/-- Leader role state, as constructed by candidate.rs
`From<Raft<Candidate>> for Raft<Leader>`: replication progress plus the
heartbeat clock (`Instant::now()` becomes the driver's `now`). -/
structure Leader where
  progress : ReplicationProgress
  heartbeat_time : Nat
  heartbeat_timeout : Nat
deriving Repr, DecidableEq

/-- The primary struct `Raft<S, I, R>` (raft.rs), over a role type `ρ` and a
log-state type `σ`.  The node map is the list of known node ids; the `Rpc`
implementation is the recorded outbox `sent`. -/
structure Raft (ρ : Type) (σ : Type) where
  id : NodeId
  config : RaftConfig
  state : State
  nodes : List NodeId
  io : σ
  sent : List RpcCall
  role : ρ
deriving DecidableEq

/-- `RaftHandle` from raft.rs: the role-indexed result of `apply`. -/
inductive RaftHandle (σ : Type) where
  | follower (r : Raft Follower σ)
  | candidate (r : Raft Candidate σ)
  | leader (r : Raft Leader σ)
deriving DecidableEq

/-- The `std::io::Error` type of the `Result` returned by `apply`.  No arm
of any `apply` implementation under `src/` constructs one. -/
structure IoError where
  msg : List Nat
deriving Repr, DecidableEq

/-- Result of one `apply` call: the two branches of Rust's
`Result<RaftHandle, Error>` plus `panicked` for a panic
(`unimplemented!()` inside an `Io` call). -/
inductive Outcome (σ : Type) where
  | ok (h : RaftHandle σ)
  | err (e : IoError)
  | panicked
deriving DecidableEq

/-- Whether an outcome is the `Err` branch of the `Result`. -/
def Outcome.isErr {σ : Type} : Outcome σ → Bool
  | .err _ => true
  | _ => false

/-- `Raft::term` (raft.rs lines 226-231) on the common state: resets
`voted_for` and sets `current_term`.  (The role hook `Role::term` resets a
Candidate's election.) -/
def raftTerm (s : State) (t : Nat) : State :=
  { s with voted_for := none, current_term := t }

/-- `From<Raft<Follower>> for Raft<Candidate>` (follower.rs lines 117-131):
a fresh election over the known cluster, everything else copied. -/
def followerToCandidate {σ : Type} (r : Raft Follower σ) : Raft Candidate σ :=
  { id := r.id, config := r.config, state := r.state, nodes := r.nodes,
    io := r.io, sent := r.sent,
    role := { election := Election.new r.nodes } }

/-- `From<Raft<Candidate>> for Raft<Follower>` (candidate.rs lines 85-98):
note `leader_id` is set to `None`, everything else copied. -/
def candidateToFollower {σ : Type} (r : Raft Candidate σ) : Raft Follower σ :=
  { id := r.id, config := r.config, state := r.state, nodes := r.nodes,
    io := r.io, sent := r.sent, role := { leader_id := none } }

/-- `From<Raft<Candidate>> for Raft<Leader>` (candidate.rs lines 100-119):
fresh progress over the node map, `heartbeat_time := Instant::now()`
(the driver's `now`), `heartbeat_timeout` from the config. -/
def candidateToLeader {σ : Type} (now : Nat) (r : Raft Candidate σ) :
    Raft Leader σ :=
  { id := r.id, config := r.config, state := r.state, nodes := r.nodes,
    io := r.io, sent := r.sent,
    role := { progress := ReplicationProgress.new r.nodes,
              heartbeat_time := now,
              heartbeat_timeout := r.config.heartbeat_timeout } }

/-- `Apply for Raft<Candidate, I, R>` (candidate.rs lines 40-83). -/
def applyCandidate {σ : Type} (io : IoImpl σ) (now : Nat)
    (r : Raft Candidate σ) (c : Command) : Outcome σ :=
  match c with
  | .Tick => .ok (.candidate r)
  | .VoteRequest _term cid =>
      .ok (.candidate { r with
        sent := r.sent ++ [.respondVote r.state.current_term cid false] })
  | .VoteResponse _term cid granted =>
      let r1 : Raft Candidate σ :=
        { r with role := { election := r.role.election.vote cid granted } }
      match r1.role.election.electionStatus with
      | .Elected => .ok (.leader (candidateToLeader now r1))
      | .Voting => .ok (.candidate r1)
      | .Defeated => .ok (.follower (candidateToFollower r1))
  | .AppendEntries term _lid entries =>
      if r.state.current_term ≤ term then
        let f := candidateToFollower r
        .ok (.follower { f with io := io.append f.io entries })
      else .ok (.candidate r)
  | .Heartbeat term lid =>
      if r.state.current_term ≤ term then
        let f := candidateToFollower r
        match io.heartbeat f.io lid with
        | some s => .ok (.follower { f with io := s })
        | none => .panicked
      else .ok (.candidate r)
  | _ => .ok (.candidate r)

/-- The state mutation of `seek_election` (candidate.rs lines 26-27):
vote for self, increment the current term. -/
def seekElectionEntry {σ : Type} (r : Raft Candidate σ) : Raft Candidate σ :=
  { r with state := { r.state with
      voted_for := some r.id,
      current_term := r.state.current_term + 1 } }

/-- `Raft<Candidate>::seek_election` (candidate.rs lines 24-31): after the
entry mutation, dispatch a granted self-vote through `apply`. -/
def seekElection {σ : Type} (io : IoImpl σ) (now : Nat)
    (r : Raft Candidate σ) : Outcome σ :=
  let r1 := seekElectionEntry r
  applyCandidate io now r1
    (.VoteResponse r1.state.current_term r1.id true)

/-- `Apply for Raft<Follower, I, R>` (follower.rs lines 29-60). -/
def applyFollower {σ : Type} (io : IoImpl σ) (now : Nat)
    (r : Raft Follower σ) (c : Command) : Outcome σ :=
  match c with
  | .AppendEntries _term lid entries =>
      .ok (.follower { r with
        state := { r.state with election_time := 0 },
        role := { leader_id := some lid },
        io := io.append r.io entries })
  | .Heartbeat _term lid =>
      match io.heartbeat r.io lid with
      | some s =>
          .ok (.follower { r with
            state := { r.state with election_time := 0 },
            role := { leader_id := some lid },
            io := s })
      | none => .panicked
  | .VoteRequest _term cid =>
      .ok (.follower { r with
        sent := r.sent ++ [.respondVote r.state.current_term cid true] })
  | .Timeout => seekElection io now (followerToCandidate r)
  | .Ping nid => .ok (.follower { r with sent := r.sent ++ [.ping nid] })
  | _ => .ok (.follower r)

/-- Step-down of a Leader on observing a higher term (spec §4.4): a fresh
Follower role (progress destroyed, no leader known yet) with the common
state put through `Raft::term` semantics (`voted_for := none`,
`current_term := t`). -/
def leaderStepDown {σ : Type} (r : Raft Leader σ) (t : Nat) : Raft Follower σ :=
  { id := r.id, config := r.config, state := raftTerm r.state t,
    nodes := r.nodes, io := r.io, sent := r.sent,
    role := { leader_id := none } }

/-- The heartbeat broadcast a Leader emits to every other node. -/
def leaderHeartbeats {σ : Type} (r : Raft Leader σ) : List RpcCall :=
  (r.nodes.filter (fun n => ¬ n = r.id)).map
    (fun n => RpcCall.heartbeatMsg r.state.current_term n)

/-- Modelled from the spec: leader.rs is declared in lib.rs but is not under
`src/`.  Spec §4.4: on `Tick`/`Timeout` with `now ≥ next_heartbeat` the
Leader broadcasts a heartbeat to each peer and resets the heartbeat clock;
on any message carrying `term > current_term` it steps down to Follower at
the new term (resetting `voted_for`) and the command is then handled by the
Follower role; a `VoteRequest` at its own term or lower is denied (the
Leader has already voted in its term); everything else leaves it unchanged. -/
def applyLeader {σ : Type} (io : IoImpl σ) (now : Nat)
    (r : Raft Leader σ) (c : Command) : Outcome σ :=
  match c with
  | .Tick | .Timeout =>
      if r.role.heartbeat_time + r.role.heartbeat_timeout ≤ now then
        .ok (.leader { r with
          role := { r.role with heartbeat_time := now },
          sent := r.sent ++ leaderHeartbeats r })
      else .ok (.leader r)
  | .VoteRequest term cid =>
      if r.state.current_term < term then
        applyFollower io now (leaderStepDown r term) c
      else
        .ok (.leader { r with
          sent := r.sent ++ [.respondVote r.state.current_term cid false] })
  | .VoteResponse term _ _ =>
      if r.state.current_term < term then
        applyFollower io now (leaderStepDown r term) c
      else .ok (.leader r)
  | .AppendEntries term _ _ =>
      if r.state.current_term < term then
        applyFollower io now (leaderStepDown r term) c
      else .ok (.leader r)
  | .Heartbeat term _ =>
      if r.state.current_term < term then
        applyFollower io now (leaderStepDown r term) c
      else .ok (.leader r)
  | _ => .ok (.leader r)

/-- `Apply for RaftHandle` (raft.rs lines 255-263): dispatch to the current
role's handler. -/
def applyHandle {σ : Type} (io : IoImpl σ) (now : Nat)
    (h : RaftHandle σ) (c : Command) : Outcome σ :=
  match h with
  | .follower r => applyFollower io now r c
  | .candidate r => applyCandidate io now r c
  | .leader r => applyLeader io now r c

/-- The node id of a handle. -/
def handleId {σ : Type} : RaftHandle σ → NodeId
  | .follower r => r.id
  | .candidate r => r.id
  | .leader r => r.id

/-- The current term of a handle. -/
def handleTerm {σ : Type} : RaftHandle σ → Nat
  | .follower r => r.state.current_term
  | .candidate r => r.state.current_term
  | .leader r => r.state.current_term

/-- The log state of a handle. -/
def handleLog {σ : Type} : RaftHandle σ → σ
  | .follower r => r.io
  | .candidate r => r.io
  | .leader r => r.io

end Josefine

namespace SrcRaft

/-- `Command` from src/src/raft/raft.rs (the older module): entries are raw
bytes. -/
inductive Command where
  | RequestVote (term : Nat) (from_id : Nat)
  | Vote (term : Nat) (from_id : Nat) (voted : Bool)
  | Append (term : Nat) (from_id : Nat) (entries : List Nat)
  | Heartbeat (term : Nat) (from_id : Nat)
  | Timeout
  | Noop
deriving Repr, DecidableEq

/-- The fields of `Raft<Candidate, T>` from src/src/raft that its `apply`
reads: the cluster (`Vec<Node>`, kept as the list of ids), the candidate's
vote tally (`inner.votes : HashMap<u64, bool>`, kept as a key-unique assoc
list), and the persistent scalars. -/
structure CandRaft where
  id : Nat
  current_term : Nat
  voted_for : Nat
  cluster : List Nat
  votes : List (Nat × Bool)
deriving Repr, DecidableEq

/-- Result of `apply` in the older module (`ApplyResult`), keeping the role
and the data the claims inspect. -/
inductive ApplyResult where
  | Follower (r : CandRaft)
  | Candidate (r : CandRaft)
  | Leader (r : CandRaft)
deriving Repr, DecidableEq

/-- `majority` from src/src/raft/candidate.rs lines 26-33: returns `0` for a
one-node cluster and `total / 2 + 1` otherwise. -/
def majority (total : Nat) : Nat :=
  if total = 1 then 0 else total / 2 + 1

/-- `HashMap::insert` on the vote tally: overwrite the key if present. -/
def votesInsert (votes : List (Nat × Bool)) (k : Nat) (v : Bool) :
    List (Nat × Bool) :=
  if votes.any (fun p => p.1 = k) then
    votes.map (fun p => if p.1 = k then (k, v) else p)
  else
    votes ++ [(k, v)]

/-- The fold of src/src/raft/candidate.rs lines 42-50: count granted votes
and total votes cast. -/
def tallyVotes (votes : List (Nat × Bool)) : Nat × Nat :=
  votes.foldl
    (fun acc p => (if p.2 then acc.1 + 1 else acc.1, acc.2 + 1)) (0, 0)

/-- `Apply for Raft<Candidate, T>` from src/src/raft/candidate.rs lines
35-72: on `Vote`, record the vote and become Leader only when the granted
count strictly exceeds `majority(cluster.len())`; on `Append`/`Heartbeat`
(no term check in this module) fall back to Follower; otherwise stay
Candidate. -/
def applyCand (r : CandRaft) (c : Command) : ApplyResult :=
  match c with
  | .Vote _term from_id voted =>
      let votes1 := votesInsert r.votes from_id voted
      let r1 := { r with votes := votes1 }
      if majority r1.cluster.length < (tallyVotes votes1).1 then
        ApplyResult.Leader r1
      else
        ApplyResult.Candidate r1
  | .Append _ _ _ => ApplyResult.Follower { r with votes := [] }
  | .Heartbeat _ _ => ApplyResult.Follower { r with votes := [] }
  | _ => ApplyResult.Candidate r

end SrcRaft

namespace Josefine

def cfg1 : RaftConfig := { id := 1, heartbeat_timeout := 5 }

/-- A fresh follower of a one-node cluster {1}. -/
def f1 : Raft Follower (List Entry) :=
  { id := 1, config := cfg1, state := State.default, nodes := [1], io := [],
    sent := [], role := { leader_id := none } }

/-- A fresh follower of a two-node cluster {1,2}. -/
def f12 : Raft Follower (List Entry) :=
  { f1 with nodes := [1, 2] }

end Josefine

namespace Josefine

/-- The `voted_for` field of a handle. -/
def handleVotedFor {σ : Type} : RaftHandle σ → Option NodeId
  | .follower r => r.state.voted_for
  | .candidate r => r.state.voted_for
  | .leader r => r.state.voted_for

/-- Every `Ok` result of the Candidate handler keeps the candidate's
current term and id: all three role conversions copy `state` and `id`. -/
theorem applyCandidate_ok {σ : Type} (io : IoImpl σ) (now : Nat)
    (r : Raft Candidate σ) (c : Command) (h : RaftHandle σ)
    (hok : applyCandidate io now r c = Outcome.ok h) :
    handleTerm h = r.state.current_term ∧ handleId h = r.id := by
  cases c <;> simp only [applyCandidate] at hok <;>
    (try split at hok) <;>
    (try split at hok)
  all_goals
    first
    | exact Outcome.noConfusion hok
    | (simp only [Outcome.ok.injEq] at hok
       cases hok
       simp [handleTerm, handleId, candidateToFollower, candidateToLeader])

/-- The Candidate handler never returns the `Err` branch. -/
theorem applyCandidate_ne_err {σ : Type} (io : IoImpl σ) (now : Nat)
    (r : Raft Candidate σ) (c : Command) :
    (applyCandidate io now r c).isErr = false := by
  cases c <;> simp only [applyCandidate] <;>
    (try split) <;>
    (try split) <;>
    simp [Outcome.isErr]

/-- `seek_election` increments the term by exactly one and keeps the id. -/
theorem seekElection_ok {σ : Type} (io : IoImpl σ) (now : Nat)
    (r : Raft Candidate σ) (h : RaftHandle σ)
    (hok : seekElection io now r = Outcome.ok h) :
    handleTerm h = r.state.current_term + 1 ∧ handleId h = r.id := by
  simp only [seekElection] at hok
  have := applyCandidate_ok io now (seekElectionEntry r) _ h hok
  simpa [seekElectionEntry] using this

/-- Every `Ok` result of the Follower handler has a term at least the
follower's and the same id. -/
theorem applyFollower_ok {σ : Type} (io : IoImpl σ) (now : Nat)
    (r : Raft Follower σ) (c : Command) (h : RaftHandle σ)
    (hok : applyFollower io now r c = Outcome.ok h) :
    r.state.current_term ≤ handleTerm h ∧ handleId h = r.id := by
  cases c <;> simp only [applyFollower] at hok
  case Timeout =>
    have := seekElection_ok io now (followerToCandidate r) h hok
    simp only [followerToCandidate] at this
    exact ⟨by omega, this.2⟩
  all_goals (try split at hok)
  all_goals
    first
    | exact Outcome.noConfusion hok
    | (simp only [Outcome.ok.injEq] at hok
       cases hok
       simp [handleTerm, handleId])

/-- The Follower handler never returns the `Err` branch. -/
theorem applyFollower_ne_err {σ : Type} (io : IoImpl σ) (now : Nat)
    (r : Raft Follower σ) (c : Command) :
    (applyFollower io now r c).isErr = false := by
  cases c <;> simp only [applyFollower]
  case Timeout =>
    simp only [seekElection]
    exact applyCandidate_ne_err io now _ _
  all_goals (try split) <;> simp [Outcome.isErr]

/-- Every `Ok` result of the (spec-modelled) Leader handler has a term at
least the leader's and the same id. -/
theorem applyLeader_ok {σ : Type} (io : IoImpl σ) (now : Nat)
    (r : Raft Leader σ) (c : Command) (h : RaftHandle σ)
    (hok : applyLeader io now r c = Outcome.ok h) :
    r.state.current_term ≤ handleTerm h ∧ handleId h = r.id := by
  cases c <;> simp only [applyLeader] at hok <;>
    (try split at hok)
  all_goals
    first
    | (rename_i hlt
       have hf := applyFollower_ok io now (leaderStepDown r _) _ h hok
       simp only [leaderStepDown, raftTerm] at hf
       exact ⟨le_trans (le_of_lt hlt) hf.1, hf.2⟩)
    | (simp only [Outcome.ok.injEq] at hok
       cases hok
       simp [handleTerm, handleId])

/-- The (spec-modelled) Leader handler never returns the `Err` branch. -/
theorem applyLeader_ne_err {σ : Type} (io : IoImpl σ) (now : Nat)
    (r : Raft Leader σ) (c : Command) :
    (applyLeader io now r c).isErr = false := by
  cases c <;> simp only [applyLeader] <;> (try split)
  all_goals
    first
    | exact applyFollower_ne_err io now _ _
    | simp [Outcome.isErr]

end Josefine

namespace Josefine

/-- The literal result of feeding `Timeout` to the two-node follower `f12`:
a Candidate at term 1 that has voted for itself. -/
def c12res : Raft Candidate (List Entry) :=
  { id := 1, config := cfg1,
    state := { State.default with current_term := 1, voted_for := some 1 },
    nodes := [1, 2], io := [], sent := [],
    role := { election := { voters := [1, 2], votes := [(1, true)] } } }

/-- A follower at term 5 that has already voted for node 2 this term. -/
def f1c : Raft Follower (List Entry) :=
  { id := 1, config := cfg1,
    state := { State.default with current_term := 5, voted_for := some 2 },
    nodes := [1, 2, 3], io := [], sent := [], role := { leader_id := none } }

/-- C1: the Follower `VoteRequest` arm (follower.rs lines 45-48) replies
`granted = true` unconditionally and never writes `voted_for`.  Here the
request's term (1) is below the node's current term (5) and the node has
already voted for a different candidate (2), so the claim requires the vote
to be denied — yet the code replies granted and leaves `voted_for` at
`some 2`. -/
theorem c1_vote_always_granted :
    f1c.state.current_term = 5 ∧
    f1c.state.voted_for = some 2 ∧
    (1 : Nat) < f1c.state.current_term ∧
    applyFollower MemoryIo 0 f1c (Command.VoteRequest 1 3) =
      Outcome.ok (RaftHandle.follower
        { f1c with sent := [RpcCall.respondVote 5 3 true] }) := by
  decide

/-- C9: for every Follower or Candidate node and every command, `apply`
never takes the `Err` branch of its `Result`: every arm of both handlers
returns `Ok` (a panic inside an `Io` call is not an `Err`). -/
theorem c9_no_error {σ : Type} (io : IoImpl σ) (now : Nat)
    (f : Raft Follower σ) (cn : Raft Candidate σ) (c c2 : Command) :
    (applyFollower io now f c).isErr = false ∧
    (applyCandidate io now cn c2).isErr = false :=
  ⟨applyFollower_ne_err io now f c, applyCandidate_ne_err io now cn c2⟩

/-- C10: every `Ok` result of `apply` carries the same node id as the input:
each role transition (Follower→Candidate, Candidate→Follower,
Candidate→Leader, Leader→Follower) copies `id` unchanged. -/
theorem c10_id_preserved {σ : Type} (io : IoImpl σ) (now : Nat)
    (h : RaftHandle σ) (c : Command) (h2 : RaftHandle σ)
    (hok : applyHandle io now h c = Outcome.ok h2) :
    handleId h2 = handleId h := by
  cases h with
  | follower r => exact (applyFollower_ok io now r c h2 hok).2
  | candidate r => exact (applyCandidate_ok io now r c h2 hok).2
  | leader r => exact (applyLeader_ok io now r c h2 hok).2

/-- Witness for C10 at a concrete input: the two-node follower times out
into a candidate with the same id. -/
theorem c10_id_preserved_witness :
    handleId (RaftHandle.candidate c12res) = handleId (RaftHandle.follower f12) :=
  c10_id_preserved MemoryIo 0 (RaftHandle.follower f12) Command.Timeout
    (RaftHandle.candidate c12res) (by decide)

end Josefine

namespace SrcRaft

/-- A candidate of the three-node cluster {1,2,3} holding its self-vote. -/
def cand3 : CandRaft :=
  { id := 1, current_term := 1, voted_for := 1, cluster := [1, 2, 3],
    votes := [(1, true)] }

/-- C3: the quorum check of src/src/raft/candidate.rs is off by one: with a
granted vote from node 2 the candidate of a three-node cluster holds 2
granted votes, which reaches the spec majority `⌈(N+1)/2⌉ = 2`, yet the
code (`votes > majority(cluster.len())`, i.e. `2 > 2`) stays Candidate
instead of transitioning to Leader. -/
theorem c3_quorum_strict :
    applyCand cand3 (Command.Vote 1 2 true) =
      ApplyResult.Candidate { cand3 with votes := [(1, true), (2, true)] } ∧
    (tallyVotes [(1, true), (2, true)]).1 = 2 ∧
    Josefine.majority 3 ≤ 2 := by
  decide

end SrcRaft

namespace Josefine

/-- C2 (amended): `current_term` never decreases across `apply`; the
`Raft::term` helper resets `voted_for` to `none` when it installs a new
term; but the become-candidate entry action (`seek_election`) increments
`current_term` while setting `voted_for` to the node's own id, not to
`none`. -/
theorem c2_term_monotone {σ : Type} (io : IoImpl σ) (now : Nat)
    (h : RaftHandle σ) (c : Command) (h2 : RaftHandle σ)
    (s : State) (t : Nat) (r : Raft Candidate σ)
    (hok : applyHandle io now h c = Outcome.ok h2) :
    handleTerm h ≤ handleTerm h2 ∧
    (raftTerm s t).voted_for = none ∧
    (raftTerm s t).current_term = t ∧
    (seekElectionEntry r).state.current_term = r.state.current_term + 1 ∧
    (seekElectionEntry r).state.voted_for = some r.id := by
  refine ⟨?_, rfl, rfl, rfl, rfl⟩
  cases h with
  | follower rr => exact (applyFollower_ok io now rr c h2 hok).1
  | candidate rr => exact le_of_eq (applyCandidate_ok io now rr c h2 hok).1.symm
  | leader rr => exact (applyLeader_ok io now rr c h2 hok).1

/-- Witness for C2 (amended) at a concrete input: the two-node follower's
timeout raises the term from 0 to 1. -/
theorem c2_term_monotone_witness :
    applyHandle MemoryIo 0 (RaftHandle.follower f12) Command.Timeout =
      Outcome.ok (RaftHandle.candidate c12res) ∧
    (handleTerm (RaftHandle.follower f12) ≤
        handleTerm (RaftHandle.candidate c12res) ∧
      (raftTerm State.default 7).voted_for = none ∧
      (raftTerm State.default 7).current_term = 7 ∧
      (seekElectionEntry c12res).state.current_term =
        c12res.state.current_term + 1 ∧
      (seekElectionEntry c12res).state.voted_for = some c12res.id) :=
  ⟨by decide,
   c2_term_monotone MemoryIo 0 (RaftHandle.follower f12) Command.Timeout
     (RaftHandle.candidate c12res) State.default 7 c12res (by decide)⟩

/-- C2 as stated is false on the code: on `Timeout` the two-node follower's
term increases from 0 to 1 inside `seek_election`, which sets `voted_for`
to the node's own id — it is `some 1`, not `none`, at the moment the
command is dispatched onward, and no later step of the handling writes
`voted_for`, so it is never `none` after the increase. -/
theorem c2_counterexample :
    f12.state.current_term = 0 ∧
    (seekElectionEntry (followerToCandidate f12)).state.current_term = 1 ∧
    (seekElectionEntry (followerToCandidate f12)).state.voted_for = some 1 ∧
    applyFollower MemoryIo 0 f12 Command.Timeout =
      Outcome.ok (RaftHandle.candidate c12res) ∧
    handleVotedFor (RaftHandle.candidate c12res) = some 1 ∧
    some 1 ≠ (none : Option NodeId) := by
  decide

/-- C5: in a one-node cluster a Follower at term 0 reaches Leader at term 1
in a single `Timeout` application: the self-vote alone meets the majority
`⌈(1+1)/2⌉ = 1`. -/
theorem c5_single_node_promotion {σ : Type} (io : IoImpl σ) (now : Nat)
    (r : Raft Follower σ)
    (h0 : r.state.current_term = 0) (h1 : r.nodes = [r.id]) :
    ∃ l : Raft Leader σ,
      applyFollower io now r Command.Timeout =
        Outcome.ok (RaftHandle.leader l) ∧
      l.state.current_term = 1 ∧ l.id = r.id := by
  simp only [applyFollower, seekElection, seekElectionEntry, followerToCandidate,
    applyCandidate, Election.new, Election.vote, insertVote,
    Election.electionStatus, Election.grantedCount, Election.deniedCount,
    majority, h0, h1]
  simp only [List.any_nil, Bool.false_eq_true, if_false, List.nil_append,
    List.length_singleton, List.filter, decide_eq_true_eq]
  norm_num
  simp [candidateToLeader]

/-- Witness for C5 at the concrete one-node cluster {1}. -/
theorem c5_single_node_promotion_witness :
    f1.state.current_term = 0 ∧ f1.nodes = [f1.id] ∧
    (∃ l : Raft Leader (List Entry),
      applyFollower MemoryIo 0 f1 Command.Timeout =
        Outcome.ok (RaftHandle.leader l) ∧
      l.state.current_term = 1 ∧ l.id = f1.id) :=
  ⟨rfl, rfl, c5_single_node_promotion MemoryIo 0 f1 rfl rfl⟩

/-- C6: in a multi-node cluster a Follower's `Timeout` yields a Candidate
whose term has been incremented exactly once and whose vote is for itself:
the single self-vote cannot reach the majority `⌈(N+1)/2⌉ ≥ 2`. -/
theorem c6_timeout_becomes_candidate {σ : Type} (io : IoImpl σ) (now : Nat)
    (r : Raft Follower σ) (hn : 2 ≤ r.nodes.length) :
    ∃ c : Raft Candidate σ,
      applyFollower io now r Command.Timeout =
        Outcome.ok (RaftHandle.candidate c) ∧
      c.state.current_term = r.state.current_term + 1 ∧
      c.state.voted_for = some r.id := by
  have hm : 1 ≤ r.nodes.length / 2 :=
    (Nat.one_le_div_iff (by norm_num)).mpr hn
  have hstat : Election.electionStatus
      { voters := r.nodes, votes := [(r.id, true)] } = ElectionStatus.Voting := by
    have hgr : Election.grantedCount
        { voters := r.nodes, votes := [(r.id, true)] } = 1 := by
      simp [Election.grantedCount]
    have hde : Election.deniedCount
        { voters := r.nodes, votes := [(r.id, true)] } = 0 := by
      simp [Election.deniedCount]
    simp only [Election.electionStatus, hgr, hde, majority]
    rw [if_neg (by omega), if_neg (by omega)]
  simp only [applyFollower, seekElection, seekElectionEntry, followerToCandidate,
    applyCandidate, Election.new, Election.vote, insertVote, List.any_nil,
    Bool.false_eq_true, if_false, List.nil_append, hstat]
  exact ⟨_, rfl, rfl, rfl⟩

/-- Witness for C6 at the concrete two-node cluster {1,2}. -/
theorem c6_timeout_becomes_candidate_witness :
    2 ≤ f12.nodes.length ∧
    (∃ c : Raft Candidate (List Entry),
      applyFollower MemoryIo 0 f12 Command.Timeout =
        Outcome.ok (RaftHandle.candidate c) ∧
      c.state.current_term = f12.state.current_term + 1 ∧
      c.state.voted_for = some f12.id) :=
  ⟨by decide, c6_timeout_becomes_candidate MemoryIo 0 f12 (by decide)⟩

end Josefine

namespace Josefine

/-- An `Io` implementation whose `heartbeat` succeeds without touching the
log, as a real (non-mock) implementation per spec §4.5 would. -/
def TestIo : IoImpl (List Entry) :=
  { append := fun st es => st ++ es, heartbeat := fun st _ => some st }

/-- A sample log entry. -/
def e0 : Entry := { term := 1, index := 1, data := [42] }

/-- C4 as stated is false on the code: a Candidate at term 0 receiving
`AppendEntries { term := 3, leader_id := 7, .. }` does transition to
Follower with the entries appended, but the resulting Follower's
`leader_id` is `none` — the sender is not recorded as leader (the
`From<Raft<Candidate>> for Raft<Follower>` conversion sets
`leader_id: None` and the entries are appended directly, without
re-dispatching to the Follower handler). -/
theorem c4_counterexample :
    applyCandidate MemoryIo 0 (followerToCandidate f12)
        (Command.AppendEntries 3 7 [e0]) =
      Outcome.ok (RaftHandle.follower { f12 with io := [e0] }) ∧
    ({ f12 with io := [e0] } : Raft Follower (List Entry)).role.leader_id
      = none ∧
    (none : Option NodeId) ≠ some 7 := by
  decide

/-- C4 (amended): a Candidate receiving `AppendEntries` with
`term ≥ current_term` transitions to Follower with `leader_id := none`
(the sender is not recorded), the same id and common state, and the carried
entries are appended to the log directly by the transition; a `Heartbeat`
with `term ≥ current_term` likewise transitions to Follower with
`leader_id := none` whenever the io heartbeat call succeeds. -/
theorem c4_amended {σ : Type} (io : IoImpl σ) (now : Nat)
    (r : Raft Candidate σ) (t : Nat) (lid : NodeId) (es : List Entry)
    (s2 : σ)
    (ht : r.state.current_term ≤ t)
    (hb : io.heartbeat r.io lid = some s2) :
    applyCandidate io now r (Command.AppendEntries t lid es) =
      Outcome.ok (RaftHandle.follower
        { candidateToFollower r with io := io.append r.io es }) ∧
    (candidateToFollower r).role.leader_id = none ∧
    (candidateToFollower r).id = r.id ∧
    (candidateToFollower r).state = r.state ∧
    applyCandidate io now r (Command.Heartbeat t lid) =
      Outcome.ok (RaftHandle.follower { candidateToFollower r with io := s2 }) := by
  refine ⟨?_, rfl, rfl, rfl, ?_⟩
  · simp only [applyCandidate, if_pos ht, candidateToFollower]
  · simp only [applyCandidate, if_pos ht, candidateToFollower] at hb ⊢
    rw [hb]

/-- Witness for C4 (amended) at a concrete candidate and io. -/
theorem c4_amended_witness :
    (followerToCandidate f12).state.current_term ≤ 3 ∧
    TestIo.heartbeat (followerToCandidate f12).io 7 = some [] ∧
    (applyCandidate TestIo 0 (followerToCandidate f12)
        (Command.AppendEntries 3 7 [e0]) =
      Outcome.ok (RaftHandle.follower { f12 with io := [e0] }) ∧
     (candidateToFollower (followerToCandidate f12)).role.leader_id = none ∧
     (candidateToFollower (followerToCandidate f12)).id =
       (followerToCandidate f12).id ∧
     (candidateToFollower (followerToCandidate f12)).state =
       (followerToCandidate f12).state ∧
     applyCandidate TestIo 0 (followerToCandidate f12) (Command.Heartbeat 3 7) =
      Outcome.ok (RaftHandle.follower f12)) :=
  ⟨by decide, by decide,
   c4_amended TestIo 0 (followerToCandidate f12) 3 7 [e0] []
     (by decide) (by decide)⟩

/-- C7 as stated is false on the code: under `MemoryIo` a Follower's
`Heartbeat` panics (`MemoryIo::heartbeat` is `unimplemented!()`), while the
same `AppendEntries` with an empty entries list succeeds — the two commands
do not produce the same result. -/
theorem c7_counterexample :
    applyFollower MemoryIo 0 f12 (Command.Heartbeat 5 2) = Outcome.panicked ∧
    applyFollower MemoryIo 0 f12 (Command.AppendEntries 5 2 []) =
      Outcome.ok (RaftHandle.follower
        { f12 with state := { f12.state with election_time := 0 },
                   role := { leader_id := some 2 } }) ∧
    (Outcome.panicked : Outcome (List Entry)) ≠
      Outcome.ok (RaftHandle.follower
        { f12 with state := { f12.state with election_time := 0 },
                   role := { leader_id := some 2 } }) := by
  decide

/-- C7 (amended): for every node, whenever the io `heartbeat` call succeeds
and returns the same log state as appending an empty entries list,
applying `Heartbeat { term, leader_id }` produces exactly the same result
as applying `AppendEntries { term, leader_id, entries := [] }`; the two
differ only in which `Io` operation they invoke (and under `MemoryIo` the
heartbeat is unimplemented and panics while the empty append succeeds). -/
theorem c7_amended {σ : Type} (io : IoImpl σ) (now : Nat)
    (h : RaftHandle σ) (t : Nat) (lid : NodeId) (s2 : σ)
    (hhb : io.heartbeat (handleLog h) lid = some s2)
    (hap : io.append (handleLog h) [] = s2) :
    applyHandle io now h (Command.Heartbeat t lid) =
      applyHandle io now h (Command.AppendEntries t lid []) := by
  cases h with
  | follower r =>
      simp only [handleLog] at hhb hap
      simp only [applyHandle, applyFollower]
      rw [hhb, hap]
  | candidate r =>
      simp only [handleLog] at hhb hap
      simp only [applyHandle, applyCandidate]
      by_cases hc : r.state.current_term ≤ t
      · simp only [if_pos hc, candidateToFollower]
        rw [hhb, hap]
      · simp only [if_neg hc]
  | leader r =>
      simp only [handleLog] at hhb hap
      simp only [applyHandle, applyLeader]
      by_cases hc : r.state.current_term < t
      · simp only [if_pos hc, applyFollower, leaderStepDown]
        rw [hhb, hap]
      · simp only [if_neg hc]

/-- Witness for C7 (amended) at a concrete follower and io. -/
theorem c7_amended_witness :
    TestIo.heartbeat (handleLog (RaftHandle.follower f12)) 2 = some [] ∧
    TestIo.append (handleLog (RaftHandle.follower f12)) [] = [] ∧
    applyHandle TestIo 0 (RaftHandle.follower f12) (Command.Heartbeat 5 2) =
      applyHandle TestIo 0 (RaftHandle.follower f12)
        (Command.AppendEntries 5 2 []) :=
  ⟨rfl, rfl, c7_amended TestIo 0 (RaftHandle.follower f12) 5 2 [] rfl rfl⟩

end Josefine

namespace Josefine

/-- C8: `Tick` with a stable clock is a no-op.  In the code under `src/` a
Follower's `Tick` (wildcard arm) and a Candidate's `Tick` arm return the
node unchanged unconditionally; for the (spec-modelled) Leader, any `Ok`
result of a `Tick` is a fixed point of another `Tick` at the same `now`
whenever the heartbeat timeout is positive. -/
theorem c8_tick_stable_noop {σ : Type} (io : IoImpl σ) (now : Nat)
    (f : Raft Follower σ) (cn : Raft Candidate σ) (l : Raft Leader σ)
    (hl : 0 < l.role.heartbeat_timeout) :
    applyFollower io now f Command.Tick = Outcome.ok (RaftHandle.follower f) ∧
    applyCandidate io now cn Command.Tick =
      Outcome.ok (RaftHandle.candidate cn) ∧
    ∀ h : RaftHandle σ, applyLeader io now l Command.Tick = Outcome.ok h →
      applyHandle io now h Command.Tick = Outcome.ok h := by
  refine ⟨rfl, rfl, ?_⟩
  intro h hok
  simp only [applyLeader] at hok
  by_cases hc : l.role.heartbeat_time + l.role.heartbeat_timeout ≤ now
  · rw [if_pos hc] at hok
    simp only [Outcome.ok.injEq] at hok
    cases hok
    simp only [applyHandle, applyLeader]
    rw [if_neg (by omega)]
  · rw [if_neg hc] at hok
    simp only [Outcome.ok.injEq] at hok
    cases hok
    simp only [applyHandle, applyLeader]
    rw [if_neg hc]

/-- A concrete leader of the two-node cluster {1,2} with heartbeat timeout 5. -/
def l1 : Raft Leader (List Entry) :=
  { id := 1, config := cfg1, state := State.default, nodes := [1, 2],
    io := [], sent := [],
    role := { progress := ReplicationProgress.new [1, 2],
              heartbeat_time := 0, heartbeat_timeout := 5 } }

/-- The concrete leader `l1` after a heartbeat fired at time 7. -/
def l1fired : Raft Leader (List Entry) :=
  { l1 with role := { l1.role with heartbeat_time := 7 },
            sent := [RpcCall.heartbeatMsg 0 2] }

/-- Witness for C8 at concrete inputs: the fired leader at time 7 is a
fixed point of a second `Tick` at the same time. -/
theorem c8_tick_stable_noop_witness :
    (0 : Nat) < l1.role.heartbeat_timeout ∧
    applyFollower MemoryIo 7 f12 Command.Tick =
      Outcome.ok (RaftHandle.follower f12) ∧
    applyLeader MemoryIo 7 l1 Command.Tick =
      Outcome.ok (RaftHandle.leader l1fired) ∧
    applyHandle MemoryIo 7 (RaftHandle.leader l1fired) Command.Tick =
      Outcome.ok (RaftHandle.leader l1fired) :=
  ⟨by decide, by decide, by decide,
   (c8_tick_stable_noop MemoryIo 7 f12 (followerToCandidate f12) l1
      (by decide)).2.2 (RaftHandle.leader l1fired) (by decide)⟩

end Josefine
